import Mathlib

/-!
Shallow embedding of the mask-aware adaptive thresholding and boundary
extraction pipeline of `filament.py` (functions `threshold`,
`segment_filament`, `batch_detect`, and the rectangle drawing loop of
`detect_filament`), together with theorems settling the specification
claims about it.

Modelling conventions:
* Images and masks are total functions `Nat → Nat → ℕ` (grayscale) or
  `Nat → Nat → Nat → ℕ` (with a channel index); the dimensions `M` (rows)
  and `N` (columns) only matter for the symmetric boundary extension used
  by `scipy.signal.convolve2d` with mode same and boundary symm.
* NumPy float arithmetic in the local-mean step is modelled by the type
  `FV`: exact rationals plus the special values produced by a division by
  zero (`pinf`, `ninf`, `nan`).  A comparison against `nan` is false,
  exactly as in IEEE/NumPy; float rounding of finite values is idealised
  to exact rational arithmetic.
* External library collaborators that are not part of this repository
  (`cv2.adaptiveThreshold` producing the first-pass mask inside
  `threshold`, `cv2.cvtColor` performing the grayscale conversion inside
  `segment_filament`, and the Mask R-CNN detector) are parameters of the
  functions that call them.
* The side effect of `cv2.imwrite` is modelled by returning the list of
  images written; Python exception propagation is the `Except` monad.
-/

namespace Filament

/-- NumPy double values as produced by the local-mean pipeline: exact
rationals plus the special values arising from a division by zero. -/
inductive FV where
  | num : ℚ → FV
  | pinf : FV
  | ninf : FV
  | nan : FV
deriving DecidableEq

/-- NumPy elementwise division, including the division-by-zero behaviour:
`0/0` is `nan`, `a/0` for `a > 0` is `+inf`, for `a < 0` it is `-inf`. -/
def fdiv (a b : ℚ) : FV :=
  if b = 0 then
    (if a = 0 then FV.nan else if 0 < a then FV.pinf else FV.ninf)
  else FV.num (a / b)

/-- Subtraction of a finite constant from an `FV` value: the special
values absorb the subtraction, as in IEEE arithmetic. -/
def fsub (x : FV) (c : ℚ) : FV :=
  match x with
  | FV.num q => FV.num (q - c)
  | FV.pinf => FV.pinf
  | FV.ninf => FV.ninf
  | FV.nan => FV.nan

/-- The comparison `a > x` between a finite value and an `FV` value.
Any comparison involving `nan` is false, as in IEEE/NumPy; nothing is
greater than `+inf` and everything is greater than `-inf`. -/
def fgt (a : ℚ) (x : FV) : Bool :=
  match x with
  | FV.num q => decide (q < a)
  | FV.pinf => false
  | FV.ninf => true
  | FV.nan => false

/-- `filament.py`, `thresh(a, b, max_value, C)`:
`return max_value if a > b - C else 0`. -/
def thresh (a : ℚ) (b : FV) (max_value : ℕ) (C : ℚ) : ℕ :=
  if fgt a (fsub b C) then max_value else 0

/-- `filament.py`, `mask(a, b)`: `return a if b > 100 else 0`. -/
def mask (a b : ℕ) : ℕ :=
  if 100 < b then a else 0

/-- `filament.py`, `unmask(a, b, c)`: `return b if c > 100 else a`. -/
def unmask (a b c : ℕ) : ℕ :=
  if 100 < c then b else a

/-- Index reflection of the scipy boundary symm extension: the grid
of height `M` is extended by half-sample symmetry (edge value repeated),
which is `2*M`-periodic. -/
def reflectIndex (M : Nat) (i : Int) : Nat :=
  let j := (i % (2 * (M : Int))).toNat
  if j < M then j else 2 * M - 1 - j

/-- A grid extended to all integer indices by symmetric reflection in
both coordinates. -/
def extGrid (M N : Nat) (g : Nat → Nat → ℚ) (i j : Int) : ℚ :=
  g (reflectIndex M i) (reflectIndex N j)

/-- `scipy.signal.convolve2d` of `g` and `ker`, mode same, boundary symm, for a
square `s × s` kernel, evaluated at output pixel `(i, j)`:
`out[i, j] = Σ_{u,v < s} ker[u, v] * g_ext[i + c - u, j + c - v]` with
`c = (s - 1) / 2` the centring offset of mode same. -/
def convolve2d (M N : Nat) (g : Nat → Nat → ℚ) (s : Nat)
    (ker : Nat → Nat → ℚ) (i j : Nat) : ℚ :=
  ∑ u ∈ Finset.range s, ∑ v ∈ Finset.range s,
    ker u v *
      extGrid M N g ((i : Int) + (((s - 1) / 2 : Nat) : Int) - (u : Int))
        ((j : Int) + (((s - 1) / 2 : Nat) : Int) - (v : Int))

/-- `filament.py`, `block_size(size)`: an all-ones `size × size` kernel
whose centre entry `[(size-1)/2, (size-1)/2]` is zeroed (indices outside
the `size × size` window are never sampled by `convolve2d`). -/
def block_size (size : Nat) : Nat → Nat → ℚ := fun u v =>
  if u = (size - 1) / 2 ∧ v = (size - 1) / 2 then 0 else 1

/-- `filament.py`, `get_number_neighbours(mask, block)`: divides the mask
by `255.0` and convolves it with the kernel, counting the unmasked
neighbours of every pixel. -/
def get_number_neighbours (M N : Nat) (m : Nat → Nat → ℕ)
    (block : Nat → Nat → ℚ) (size : Nat) (i j : Nat) : ℚ :=
  convolve2d M N (fun a b => (m a b : ℚ) / 255) size block i j

/-- The elementwise quotient `mean_conv = conv / get_number_neighbours`
from `masked_adaptive_threshold`: the masked local mean of spec §4.2,
`neighbor_sum / neighbor_count`, including the NumPy division-by-zero
behaviour. -/
def local_mean (M N : Nat) (image m : Nat → Nat → ℕ) (size : Nat)
    (i j : Nat) : FV :=
  fdiv (convolve2d M N (fun a b => (image a b : ℚ)) size (block_size size) i j)
    (get_number_neighbours M N m (block_size size) size i j)

/-- `np.vectorize(thresh)` applied elementwise: `v_thresh(image, mean,
max_value, C)`. -/
def v_thresh (image : Nat → Nat → ℕ) (mean : Nat → Nat → FV)
    (max_value : ℕ) (C : ℚ) : Nat → Nat → ℕ :=
  fun i j => thresh (image i j) (mean i j) max_value C

/-- `np.vectorize(mask)` applied elementwise: `v_mask(image, m)`. -/
def v_mask (image m : Nat → Nat → ℕ) : Nat → Nat → ℕ :=
  fun i j => mask (image i j) (m i j)

/-- `np.vectorize(unmask)` applied elementwise:
`v_unmask(original, binarized, m)`. -/
def v_unmask (original binarized m : Nat → Nat → ℕ) : Nat → Nat → ℕ :=
  fun i j => unmask (original i j) (binarized i j) (m i j)

/-- `filament.py`, `masked_adaptive_threshold(image, mask, max_value,
size, C)`: convolves the image with the centre-zeroed ones kernel,
divides by the neighbour count, and applies `v_thresh`. -/
def masked_adaptive_threshold (M N : Nat) (image m : Nat → Nat → ℕ)
    (max_value size : ℕ) (C : ℚ) : Nat → Nat → ℕ :=
  v_thresh image (fun i j => local_mean M N image m size i j) max_value C

/-- `filament.py`, `threshold(image)`.  The first-pass
`cv2.adaptiveThreshold` + `cv2.bitwise_not` mask computation is an
external library call, modelled by the parameter `adaptive`; the rest is
the source body: mask the image, run `masked_adaptive_threshold` with
`max_value=255, size=9, C=4`, unmask, and cast to `uint8` (`% 256`). -/
def threshold (M N : Nat) (adaptive : (Nat → Nat → ℕ) → Nat → Nat → ℕ)
    (image : Nat → Nat → ℕ) : Nat → Nat → ℕ := fun i j =>
  v_unmask image
    (masked_adaptive_threshold M N (v_mask image (adaptive image))
      (adaptive image) 255 9 4)
    (adaptive image) i j % 256

/-- `np.sum(mask, -1, keepdims=True) >= 1` from `segment_filament`: the
composite foreground mask, true where at least one of the `n` instance
slices is set. -/
def compositeMask (n : Nat) (stack : Nat → Nat → Nat → Bool)
    (i j : Nat) : Bool :=
  decide (1 ≤ ∑ k ∈ Finset.range n, (if stack i j k then (1 : ℕ) else 0))

/-- `binary = np.where(mask, image, binary)` with `binary` the all-255
blank canvas, from `segment_filament`: keep the image where the composite
mask is set, else 255 (broadcast over the channel index `c`). -/
def compositeBinary (n : Nat) (stack : Nat → Nat → Nat → Bool)
    (image : Nat → Nat → Nat → ℕ) : Nat → Nat → Nat → ℕ :=
  fun i j c => if compositeMask n stack i j then image i j c else 255

/-- `filament.py`, `segment_filament(mask, image, image_path)`.
`cv2.cvtColor(..., COLOR_BGR2GRAY)` is an external library call, modelled
by the parameter `gray`; `cv2.imwrite` is modelled by returning the list
of images written.  The body writes nothing unless an output path is
given and the instance stack is non-empty. -/
def segment_filament (M N : Nat)
    (gray : (Nat → Nat → Nat → ℕ) → Nat → Nat → ℕ)
    (adaptive : (Nat → Nat → ℕ) → Nat → Nat → ℕ)
    (n : Nat) (stack : Nat → Nat → Nat → Bool)
    (image : Nat → Nat → Nat → ℕ) (hasPath : Bool) :
    List (Nat → Nat → ℕ) :=
  if hasPath then
    if 0 < n then
      [threshold M N adaptive (gray (compositeBinary n stack image))]
    else []
  else []

/-- `filament.py`, `batch_detect(model, dir_path)`: iterate the globbed
file list, calling `detect_filament` on each.  The per-image call is the
parameter `detect`; a Python exception raised by it propagates out of the
plain `for` loop, which is the `Except.error` case here. -/
def batch_detect {α E : Type} (detect : α → Except E Unit) :
    List α → Except E Unit
  | [] => Except.ok ()
  | f :: fs =>
    match detect f with
    | Except.ok _ => batch_detect detect fs
    | Except.error e => Except.error e

/-- The files on which `batch_detect` actually invokes the per-image
pipeline before terminating (normally or by a propagated exception). -/
def batch_attempts {α E : Type} (detect : α → Except E Unit) :
    List α → List α
  | [] => []
  | f :: fs =>
    match detect f with
    | Except.ok _ => f :: batch_attempts detect fs
    | Except.error _ => [f]

/-- The corner pair passed to `cv2.rectangle` in `detect_filament` for a
detected box `(y1, x1, y2, x2)`:
`((rect[i][1]-10, rect[i][0]-10), (rect[i][3]+10, rect[i][2]+10))`. -/
def rectangle_corners (box : Int × Int × Int × Int) :
    (Int × Int) × (Int × Int) :=
  ((box.2.1 - 10, box.1 - 10), (box.2.2.2 + 10, box.2.2.1 + 10))

/-- The rectangle-drawing loop of `detect_filament`: one `cv2.rectangle`
call per detected box, each with the 10-pixel-inflated corners. -/
def draw_rectangles (rects : List (Int × Int × Int × Int)) :
    List ((Int × Int) × (Int × Int)) :=
  rects.map rectangle_corners

/-! Helper lemmas shared by the claim theorems. -/

lemma thresh_eq_zero_or_max (a : ℚ) (b : FV) (mv : ℕ) (C : ℚ) :
    thresh a b mv C = 0 ∨ thresh a b mv C = mv := by
  unfold thresh
  split
  · exact Or.inr rfl
  · exact Or.inl rfl

lemma block_size_nonneg (s : Nat) : ∀ u v, 0 ≤ block_size s u v := by
  intro u v
  unfold block_size
  split <;> norm_num

lemma convolve2d_nonneg (M N : Nat) (g : Nat → Nat → ℚ)
    (hg : ∀ a b, 0 ≤ g a b) (s : Nat) (ker : Nat → Nat → ℚ)
    (hker : ∀ u v, 0 ≤ ker u v) (i j : Nat) :
    0 ≤ convolve2d M N g s ker i j := by
  unfold convolve2d
  refine Finset.sum_nonneg fun u _ => Finset.sum_nonneg fun v _ => ?_
  exact mul_nonneg (hker u v) (hg _ _)

lemma convolve2d_const (M N : Nat) (g : Nat → Nat → ℚ) (q : ℚ)
    (hg : ∀ a b, g a b = q) (s : Nat) (ker : Nat → Nat → ℚ) (i j : Nat) :
    convolve2d M N g s ker i j
      = (∑ u ∈ Finset.range s, ∑ v ∈ Finset.range s, ker u v) * q := by
  unfold convolve2d
  rw [Finset.sum_mul]
  refine Finset.sum_congr rfl fun u _ => ?_
  rw [Finset.sum_mul]
  refine Finset.sum_congr rfl fun v _ => ?_
  unfold extGrid
  rw [hg]

lemma block_size_eq (s u v : Nat) :
    block_size s u v
      = 1 - (if u = (s - 1) / 2 ∧ v = (s - 1) / 2 then (1 : ℚ) else 0) := by
  unfold block_size
  split <;> norm_num

lemma center_sum (s : Nat) (hs : 1 < s) :
    ∑ u ∈ Finset.range s, ∑ v ∈ Finset.range s,
      (if u = (s - 1) / 2 ∧ v = (s - 1) / 2 then (1 : ℚ) else 0) = 1 := by
  have hc : (s - 1) / 2 ∈ Finset.range s :=
    Finset.mem_range.mpr (lt_of_le_of_lt (Nat.div_le_self _ _) (by omega))
  have h1 : ∀ u, ∑ v ∈ Finset.range s,
      (if u = (s - 1) / 2 ∧ v = (s - 1) / 2 then (1 : ℚ) else 0)
      = if u = (s - 1) / 2 then (1 : ℚ) else 0 := by
    intro u
    by_cases hu : u = (s - 1) / 2
    · simp only [hu, true_and]
      rw [Finset.sum_ite_eq' (Finset.range s) ((s - 1) / 2) fun _ => (1 : ℚ)]
      simp [hc]
    · simp [hu]
  rw [Finset.sum_congr rfl fun u _ => h1 u]
  rw [Finset.sum_ite_eq' (Finset.range s) ((s - 1) / 2) fun _ => (1 : ℚ)]
  simp [hc]

lemma block_sum (s : Nat) (hs : 1 < s) :
    ∑ u ∈ Finset.range s, ∑ v ∈ Finset.range s, block_size s u v
      = (s : ℚ) ^ 2 - 1 := by
  calc ∑ u ∈ Finset.range s, ∑ v ∈ Finset.range s, block_size s u v
      = ∑ u ∈ Finset.range s, ∑ v ∈ Finset.range s,
          ((1 : ℚ) - (if u = (s - 1) / 2 ∧ v = (s - 1) / 2 then (1 : ℚ) else 0)) :=
        Finset.sum_congr rfl fun u _ =>
          Finset.sum_congr rfl fun v _ => block_size_eq s u v
    _ = (s : ℚ) ^ 2 - 1 := by
        simp only [Finset.sum_sub_distrib, Finset.sum_const, Finset.card_range,
          nsmul_eq_mul, mul_one, center_sum s hs]
        ring

lemma count_all_counted (M N : Nat) (size : Nat) (hs : 1 < size) (i j : Nat) :
    get_number_neighbours M N (fun _ _ => 255) (block_size size) size i j
      = (size : ℚ) ^ 2 - 1 := by
  unfold get_number_neighbours
  rw [convolve2d_const M N _ 1 (fun a b => by norm_num) size (block_size size) i j]
  rw [mul_one]
  exact block_sum size hs

lemma masked_adaptive_threshold_pixel (M N : Nat) (image m : Nat → Nat → ℕ)
    (mv size : ℕ) (C : ℚ) (i j : Nat) :
    masked_adaptive_threshold M N image m mv size C i j
      = thresh (image i j) (local_mean M N image m size i j) mv C := rfl

lemma masked_adaptive_threshold_zero_or_max (M N : Nat)
    (image m : Nat → Nat → ℕ) (mv size : ℕ) (C : ℚ) (i j : Nat) :
    masked_adaptive_threshold M N image m mv size C i j = 0 ∨
    masked_adaptive_threshold M N image m mv size C i j = mv :=
  thresh_eq_zero_or_max _ _ _ _

lemma threshold_pixel (M N : Nat)
    (adaptive : (Nat → Nat → ℕ) → Nat → Nat → ℕ)
    (image : Nat → Nat → ℕ) (i j : Nat) (h : image i j ≤ 255) :
    threshold M N adaptive image i j
      = if 100 < adaptive image i j
        then masked_adaptive_threshold M N (v_mask image (adaptive image))
               (adaptive image) 255 9 4 i j
        else image i j := by
  unfold threshold v_unmask unmask
  by_cases hm : 100 < adaptive image i j
  · rw [if_pos hm]
    rcases masked_adaptive_threshold_zero_or_max M N
        (v_mask image (adaptive image)) (adaptive image) 255 9 4 i j with h0 | h255
    · rw [h0]
    · rw [h255]
  · rw [if_neg hm]
    exact Nat.mod_eq_of_lt (by omega)

/-- Claim C3: in the Adaptive Threshold Core, for every pixel of the
masked image passed to the binarization step, the output equals 255 when
the masked image value is strictly greater than `local_mean - C` (in the
float semantics of the code, where a comparison against NaN/inf is false) and
0 otherwise, with the masked local mean computed at `max_value = 255`,
window size 9 and `C = 4`. -/
theorem C3_per_pixel_rule (M N : Nat)
    (adaptive : (Nat → Nat → ℕ) → Nat → Nat → ℕ)
    (image : Nat → Nat → ℕ) (i j : Nat) :
    masked_adaptive_threshold M N (v_mask image (adaptive image))
        (adaptive image) 255 9 4 i j
      = if fgt ((v_mask image (adaptive image) i j : ℕ) : ℚ)
            (fsub (local_mean M N (v_mask image (adaptive image))
              (adaptive image) 9 i j) 4)
        then 255 else 0 := rfl

/-- Claim C4: for every input image (with 8-bit pixel values) and every
pixel, the output of `threshold` is the original pre-mask image value
wherever the first-pass adaptive mask value is at most 100 (the mask
transform zeroes such pixels before the local statistics and the unmask
transform restores them), and the binarized value of the masked image
wherever the mask value exceeds 100. -/
theorem C4_mask_unmask_passthrough (M N : Nat)
    (adaptive : (Nat → Nat → ℕ) → Nat → Nat → ℕ)
    (image : Nat → Nat → ℕ) (i j : Nat) (h : image i j ≤ 255) :
    threshold M N adaptive image i j
      = if 100 < adaptive image i j
        then masked_adaptive_threshold M N (v_mask image (adaptive image))
               (adaptive image) 255 9 4 i j
        else image i j :=
  threshold_pixel M N adaptive image i j h

/-- A concrete constant-7 test image for the C4 witness. -/
def wImage7 : Nat → Nat → ℕ := fun _ _ => 7

/-- A concrete first-pass mask for the C4 witness: 200 at the origin,
0 elsewhere. -/
def wAdapt200 : (Nat → Nat → ℕ) → Nat → Nat → ℕ :=
  fun _ a b => if a = 0 ∧ b = 0 then 200 else 0

/-- Witness for C4 at a concrete image and first-pass mask. -/
theorem C4_mask_unmask_passthrough_witness :
    wImage7 0 0 ≤ 255 ∧
    threshold 1 1 wAdapt200 wImage7 0 0
      = if 100 < wAdapt200 wImage7 0 0
        then masked_adaptive_threshold 1 1 (v_mask wImage7 (wAdapt200 wImage7))
               (wAdapt200 wImage7) 255 9 4 0 0
        else wImage7 0 0 :=
  ⟨by decide, C4_mask_unmask_passthrough 1 1 wAdapt200 wImage7 0 0
    (by decide)⟩

/-- Claim C7: the corners handed to `cv2.rectangle` for a detected box
`(y1, x1, y2, x2)` are exactly `(x1 - 10, y1 - 10)` and
`(x2 + 10, y2 + 10)`; in particular, for the box `(50, 60, 150, 160)`
they are `(50, 40)` and `(170, 160)`. -/
theorem C7_rectangle_corners (y1 x1 y2 x2 : Int) :
    rectangle_corners (y1, x1, y2, x2)
        = ((x1 - 10, y1 - 10), (x2 + 10, y2 + 10)) ∧
    rectangle_corners (50, 60, 150, 160) = ((50, 40), (170, 160)) ∧
    draw_rectangles [(y1, x1, y2, x2)]
        = [((x1 - 10, y1 - 10), (x2 + 10, y2 + 10))] :=
  ⟨rfl, by decide, rfl⟩

/-- Claim C9: for every odd `size > 1`, the kernel built by `block_size`
has a zero at the centre `((size-1)/2, (size-1)/2)` and a one at every
other position of the `size × size` grid, and its entries sum to
`size² - 1`. -/
theorem C9_block_kernel (size u v : Nat) (hodd : size % 2 = 1)
    (hs : 1 < size) (hu : u < size) (hv : v < size) :
    (block_size size u v
        = if u = (size - 1) / 2 ∧ v = (size - 1) / 2 then 0 else 1) ∧
    block_size size ((size - 1) / 2) ((size - 1) / 2) = 0 ∧
    ∑ a ∈ Finset.range size, ∑ b ∈ Finset.range size, block_size size a b
      = (size : ℚ) ^ 2 - 1 :=
  ⟨rfl, by simp [block_size], block_sum size hs⟩

/-- Witness for C9 at `size = 9`. -/
theorem C9_block_kernel_witness :
    (9 % 2 = 1 ∧ 1 < 9 ∧ 0 < 9 ∧ 4 < 9) ∧
    ((block_size 9 0 4
        = if (0 : Nat) = (9 - 1) / 2 ∧ (4 : Nat) = (9 - 1) / 2 then 0 else 1) ∧
      block_size 9 ((9 - 1) / 2) ((9 - 1) / 2) = 0 ∧
      ∑ a ∈ Finset.range 9, ∑ b ∈ Finset.range 9, block_size 9 a b
        = (9 : ℚ) ^ 2 - 1) :=
  ⟨by decide, C9_block_kernel 9 0 4 (by decide) (by decide) (by decide)
    (by decide)⟩

/-- Claim C10: for every 8-bit input image, every output pixel of
`threshold` is one of 0, 255, or the original input value at that
position: pixels where the first-pass adaptive mask is at most 100 carry
the original value, and all other pixels are 0 or 255.  This holds even
when the local-mean division yields NaN or infinity at zero-neighbour
pixels, since the comparison in `thresh` is then false and produces 0,
so the `uint8` cast never receives a NaN from the binarized branch. -/
theorem C10_output_three_valued (M N : Nat)
    (adaptive : (Nat → Nat → ℕ) → Nat → Nat → ℕ)
    (image : Nat → Nat → ℕ) (i j : Nat) (h : image i j ≤ 255) :
    (adaptive image i j ≤ 100 ∧
      threshold M N adaptive image i j = image i j) ∨
    (100 < adaptive image i j ∧
      (threshold M N adaptive image i j = 0 ∨
        threshold M N adaptive image i j = 255)) := by
  have hp := threshold_pixel M N adaptive image i j h
  by_cases hm : 100 < adaptive image i j
  · refine Or.inr ⟨hm, ?_⟩
    rw [hp, if_pos hm]
    exact masked_adaptive_threshold_zero_or_max M N
      (v_mask image (adaptive image)) (adaptive image) 255 9 4 i j
  · refine Or.inl ⟨by omega, ?_⟩
    rw [hp, if_neg hm]

/-- A concrete constant-9 test image for the C10 witness. -/
def wImage9 : Nat → Nat → ℕ := fun _ _ => 9

/-- A concrete constant-50 first-pass mask for the C10 witness. -/
def wAdapt50 : (Nat → Nat → ℕ) → Nat → Nat → ℕ := fun _ _ _ => 50

/-- Witness for C10 at a concrete image and first-pass mask. -/
theorem C10_output_three_valued_witness :
    wImage9 0 0 ≤ 255 ∧
    ((wAdapt50 wImage9 0 0 ≤ 100 ∧
        threshold 1 1 wAdapt50 wImage9 0 0 = wImage9 0 0) ∨
      (100 < wAdapt50 wImage9 0 0 ∧
        (threshold 1 1 wAdapt50 wImage9 0 0 = 0 ∨
          threshold 1 1 wAdapt50 wImage9 0 0 = 255))) :=
  ⟨by decide, C10_output_three_valued 1 1 wAdapt50 wImage9 0 0 (by decide)⟩

/-- Claim C1 counterexample: the local-mean division is not guarded.  On
the all-zero (fully excluded) mask, the neighbour count of the pixel
`(0,0)` is zero and the elementwise division `neighbor_sum /
neighbor_count` produces NaN — not a defined sentinel or fallback value —
so the error branch of the division is reachable. -/
theorem C1_division_unguarded_counterexample :
    local_mean 1 1 (fun _ _ => 0) (fun _ _ => 0) 9 0 0 = FV.nan := by
  simp [local_mean, get_number_neighbours, convolve2d, extGrid, fdiv]

/-- Claim C1 (amended): the division is unguarded — at a pixel whose
neighbour count is zero the local mean is NaN (or +inf), not a defined
fallback value — but the threshold comparison evaluates to false on
NaN/inf, so such pixels binarize to 0 and no NaN or garbage value
propagates into the final cast to an 8-bit image. -/
theorem C1_zero_neighbour_count_benign (M N : Nat)
    (image m : Nat → Nat → ℕ) (size mv : ℕ) (C : ℚ) (i j : Nat)
    (h : get_number_neighbours M N m (block_size size) size i j = 0) :
    (local_mean M N image m size i j = FV.nan ∨
      local_mean M N image m size i j = FV.pinf) ∧
    masked_adaptive_threshold M N image m mv size C i j = 0 := by
  have hconv : 0 ≤ convolve2d M N (fun a b => (image a b : ℚ)) size
      (block_size size) i j :=
    convolve2d_nonneg M N _ (fun a b => Nat.cast_nonneg _) size _
      (block_size_nonneg size) i j
  have hlm : local_mean M N image m size i j = FV.nan ∨
      local_mean M N image m size i j = FV.pinf := by
    unfold local_mean
    rw [h]
    unfold fdiv
    rw [if_pos rfl]
    by_cases hc : convolve2d M N (fun a b => (image a b : ℚ)) size
        (block_size size) i j = 0
    · exact Or.inl (by rw [if_pos hc])
    · refine Or.inr ?_
      rw [if_neg hc, if_pos (lt_of_le_of_ne hconv (Ne.symm hc))]
  refine ⟨hlm, ?_⟩
  rw [masked_adaptive_threshold_pixel]
  rcases hlm with h1 | h1 <;> rw [h1] <;> simp [thresh, fsub, fgt]

/-- Witness for C1 (amended) at the all-zero mask and a constant-5
image: the neighbour count at `(0,0)` is zero. -/
theorem C1_zero_neighbour_count_benign_witness :
    get_number_neighbours 1 1 (fun _ _ => 0) (block_size 9) 9 0 0 = 0 ∧
    ((local_mean 1 1 (fun _ _ => 5) (fun _ _ => 0) 9 0 0 = FV.nan ∨
        local_mean 1 1 (fun _ _ => 5) (fun _ _ => 0) 9 0 0 = FV.pinf) ∧
      masked_adaptive_threshold 1 1 (fun _ _ => 5) (fun _ _ => 0)
        255 9 4 0 0 = 0) := by
  have h : get_number_neighbours 1 1 (fun _ _ => 0) (block_size 9) 9 0 0
      = 0 := by
    simp [get_number_neighbours, convolve2d, extGrid]
  exact ⟨h, C1_zero_neighbour_count_benign 1 1 (fun _ _ => 5)
    (fun _ _ => 0) 9 255 4 0 0 h⟩

/-- Claim C2 counterexample: called with an output path and a
zero-instance stack, `segment_filament` writes nothing at all — its list
of written images is empty, not the claimed all-255 blank canvas. -/
theorem C2_empty_stack_counterexample :
    segment_filament 2 2 (fun img i j => img i j 0) (fun img => img) 0
        (fun _ _ _ => false) (fun _ _ _ => 7) true = [] ∧
    segment_filament 2 2 (fun img i j => img i j 0) (fun img => img) 0
        (fun _ _ _ => false) (fun _ _ _ => 7) true
      ≠ [fun _ _ => 255] := by
  refine ⟨rfl, ?_⟩
  intro hcontra
  exact List.noConfusion hcontra

/-- Claim C2 (amended): with an output path and a zero-instance stack,
`segment_filament` short-circuits by writing no file at all — it neither
fails nor produces a blank canvas. -/
theorem C2_empty_stack_writes_nothing (M N : Nat)
    (gray : (Nat → Nat → Nat → ℕ) → Nat → Nat → ℕ)
    (adaptive : (Nat → Nat → ℕ) → Nat → Nat → ℕ)
    (stack : Nat → Nat → Nat → Bool) (image : Nat → Nat → Nat → ℕ) :
    segment_filament M N gray adaptive 0 stack image true = [] := rfl

/-- Claim C5: with an output path and at least one instance,
`segment_filament` writes exactly one image: the adaptive threshold of
the grayscale conversion of the composite `where(OR-collapsed mask,
image, all-255 canvas)`; and for one full-image foreground slice the
composite equals the original image, so its grayscale conversion equals
the grayscale original. -/
theorem C5_compositor_pipeline (M N : Nat)
    (gray : (Nat → Nat → Nat → ℕ) → Nat → Nat → ℕ)
    (adaptive : (Nat → Nat → ℕ) → Nat → Nat → ℕ)
    (n : Nat) (stack : Nat → Nat → Nat → Bool)
    (image : Nat → Nat → Nat → ℕ) (hn : 0 < n) :
    segment_filament M N gray adaptive n stack image true
      = [threshold M N adaptive (gray (compositeBinary n stack image))] ∧
    (segment_filament M N gray adaptive n stack image true).length = 1 ∧
    gray (compositeBinary 1 (fun _ _ _ => true) image) = gray image := by
  have h1 : segment_filament M N gray adaptive n stack image true
      = [threshold M N adaptive (gray (compositeBinary n stack image))] := by
    unfold segment_filament
    rw [if_pos rfl, if_pos hn]
  have hcb : compositeBinary 1 (fun _ _ _ => true) image = image := by
    funext i j c
    unfold compositeBinary compositeMask
    simp
  exact ⟨h1, by rw [h1]; rfl, by rw [hcb]⟩

/-- A concrete channelled test image for the C5 witness. -/
def wColorImage : Nat → Nat → Nat → ℕ := fun _ _ _ => 3

/-- A concrete grayscale-conversion collaborator for the C5 witness:
project the channel-0 plane. -/
def wGray : (Nat → Nat → Nat → ℕ) → Nat → Nat → ℕ := fun img i j => img i j 0

/-- A concrete first-pass-mask collaborator for the C5 witness. -/
def wAdaptId : (Nat → Nat → ℕ) → Nat → Nat → ℕ := fun img => img

/-- A concrete one-instance full-foreground stack for the C5 witness. -/
def wFullStack : Nat → Nat → Nat → Bool := fun _ _ _ => true

/-- Witness for C5 at a one-instance full-foreground stack. -/
theorem C5_compositor_pipeline_witness :
    0 < 1 ∧
    (segment_filament 1 1 wGray wAdaptId 1 wFullStack wColorImage true
        = [threshold 1 1 wAdaptId
            (wGray (compositeBinary 1 wFullStack wColorImage))] ∧
      (segment_filament 1 1 wGray wAdaptId 1 wFullStack wColorImage
          true).length = 1 ∧
      wGray (compositeBinary 1 (fun _ _ _ => true) wColorImage)
        = wGray wColorImage) :=
  ⟨by decide, C5_compositor_pipeline 1 1 wGray wAdaptId 1 wFullStack
    wColorImage (by decide)⟩

/-- Claim C6 counterexample: `batch_detect` has no per-image exception
handling.  With a per-image pipeline that fails on the first of two
files, the batch terminates with that error and never invokes the
pipeline on the second file, so a failure on one image halts the
processing of the remaining images. -/
theorem C6_batch_halts_counterexample :
    batch_detect
        (fun k : Nat => if k = 0 then Except.error () else Except.ok ())
        [0, 1] = Except.error () ∧
    batch_attempts
        (fun k : Nat => if k = 0 then Except.error () else Except.ok ())
        [0, 1] = [0] ∧
    ¬ (1 ∈ batch_attempts
        (fun k : Nat => if k = 0 then Except.error () else Except.ok ())
        [0, 1]) :=
  ⟨rfl, rfl, by decide⟩

/-- Claim C6 (amended): batch mode invokes the per-image pipeline on each
globbed file in order, but a failure while processing one image
propagates out of the loop: the batch terminates with that error and the
remaining files are not processed. -/
theorem C6_failure_halts_batch {α E : Type} (detect : α → Except E Unit)
    (f : α) (fs : List α) (e : E) (h : detect f = Except.error e) :
    batch_detect detect (f :: fs) = Except.error e ∧
    batch_attempts detect (f :: fs) = [f] := by
  constructor
  · show (match detect f with
      | Except.ok _ => batch_detect detect fs
      | Except.error e => Except.error e) = Except.error e
    rw [h]
  · show (match detect f with
      | Except.ok _ => f :: batch_attempts detect fs
      | Except.error _ => [f]) = [f]
    rw [h]

/-- A concrete fallible per-image pipeline for the C6 witness: fails on
file 2, succeeds elsewhere. -/
def wDetectFail2 : Nat → Except Nat Unit :=
  fun k => if k = 2 then Except.error 7 else Except.ok ()

/-- Witness for C6 (amended): the pipeline fails on the first of the two
files `[2, 3]`, the batch stops with that error, and file 3 is never
attempted. -/
theorem C6_failure_halts_batch_witness :
    wDetectFail2 2 = Except.error 7 ∧
    (batch_detect wDetectFail2 [2, 3] = Except.error 7 ∧
      batch_attempts wDetectFail2 [2, 3] = [2]) :=
  ⟨rfl, C6_failure_halts_batch wDetectFail2 2 [3] 7 rfl⟩

/-- Claim C8: when every pixel of the mask is counted (mask uniformly
255), the masked local mean equals the unmasked sliding-window mean: the
convolution of the image with the centre-zeroed ones kernel divided by
the number of ones of the kernel, `size² - 1`. -/
theorem C8_all_counted_mask_mean (M N : Nat) (image : Nat → Nat → ℕ)
    (size : Nat) (hodd : size % 2 = 1) (hs : 1 < size) (i j : Nat) :
    local_mean M N image (fun _ _ => 255) size i j
      = FV.num (convolve2d M N (fun a b => (image a b : ℚ)) size
            (block_size size) i j / ((size : ℚ) ^ 2 - 1)) := by
  unfold local_mean
  rw [count_all_counted M N size hs i j]
  unfold fdiv
  have hne : ((size : ℚ) ^ 2 - 1) ≠ 0 := by
    have h2 : (2 : ℚ) ≤ (size : ℚ) := by exact_mod_cast hs
    nlinarith
  rw [if_neg hne]

/-- A concrete constant-5 test image for the C8 witness. -/
def wImage5 : Nat → Nat → ℕ := fun _ _ => 5

/-- Witness for C8 at `size = 3` on a constant image. -/
theorem C8_all_counted_mask_mean_witness :
    (3 % 2 = 1 ∧ 1 < 3) ∧
    local_mean 1 1 wImage5 (fun _ _ => 255) 3 0 0
      = FV.num (convolve2d 1 1 (fun a b => (wImage5 a b : ℚ)) 3
            (block_size 3) 0 0 / ((3 : ℚ) ^ 2 - 1)) :=
  ⟨by decide, C8_all_counted_mask_mean 1 1 wImage5 3 (by decide)
    (by decide) 0 0⟩

end Filament
